import Mathlib

/-!
Shallow embedding of `pb_monitor.c` (push-button monitor).

The C program keeps three pieces of mutable state that the claims are about:
the mode enum `state` (PB_STATE_START / PB_STATE_INUSE), the press-interval
start timestamp `timer_start` (a `struct timespec`, with (0,0) meaning "no
press open"), and the global command buffer
`str_sys_call_check_factory_reset` that call sites extend with `strcat`.
Side effects (LED script calls, reboot/shutdown, marker-file creation and
removal, `system` of the check script, printf diagnostics) are modelled as an
emitted list of `Effect`s.

`test_time` in the source returns a `double` equal to
`tv_sec + tv_nsec/1e9` of the duration; we represent that value exactly by
its total number of nanoseconds (an `Int`).  For press-scale durations the
double is exact to far below one nanosecond, the C truth test
`if (total_time)` coincides with `ns ≠ 0`, and the
`(unsigned long)total_time` cast coincides with `ns.toNat / 1000000000`.
-/

/-- LED states, mirroring `enum led_state` in the source. -/
inductive LedState where
  | LED_OFF
  | LED_GREEN
  | LED_RED
  | LED_FLASH_GREEN
  | LED_FLASH_RED
deriving DecidableEq, Repr

/-- Operating modes, mirroring `enum pb_state` in the source. -/
inductive PbState where
  | PB_STATE_START
  | PB_STATE_INUSE
deriving DecidableEq, Repr

/-- `struct timespec`: seconds and nanoseconds, both signed in C. -/
structure Timespec where
  tv_sec : Int
  tv_nsec : Int
deriving DecidableEq, Repr

/-- Observable side effects of the monitor, in program order. -/
inductive Effect where
  | sysLed (l : LedState)
  | sysReboot
  | sysShutdown
  | sysCmd (cmd : String)
  | createMarker
  | removeMarker
  | log (msg : String)
deriving DecidableEq, Repr

/-- The mutable state of the monitor process: the mode enum, the shared
`strcat` command buffer, the press-interval start timestamp, and the
presence of the persisted factory-reset marker file. -/
structure Monitor where
  state : PbState
  checkCmd : String
  timer_start : Timespec
  markerPresent : Bool
deriving DecidableEq, Repr

/-- Initial contents of the global `str_sys_call_check_factory_reset` buffer. -/
def str_sys_call_check_factory_reset : String :=
  "/usr/local/bin/check-factory-reset.sh "

/-- `TIMER1_EXPIRE`: initial timer period in STARTUP (seconds). -/
def TIMER1_EXPIRE : Nat := 10

/-- `TIMER1_INTERVAL`: periodic tick interval (seconds). -/
def TIMER1_INTERVAL : Nat := 2

/-- `timespec_diff`: duration between two timestamps, with nanosecond borrow. -/
def timespec_diff (start stop : Timespec) : Timespec :=
  if stop.tv_nsec - start.tv_nsec < 0 then
    ⟨stop.tv_sec - start.tv_sec - 1, stop.tv_nsec - start.tv_nsec + 1000000000⟩
  else
    ⟨stop.tv_sec - start.tv_sec, stop.tv_nsec - start.tv_nsec⟩

/-- `test_time`: returns the press duration (here in exact nanoseconds; the
source returns the same value as a double in seconds), or `0` when no start
time is set — the open/closed test is `tv_sec > 0 || tv_nsec > 0`. -/
def test_time (start stop : Timespec) : Int :=
  if 0 < start.tv_sec ∨ 0 < start.tv_nsec then
    (timespec_diff start stop).tv_sec * 1000000000 + (timespec_diff start stop).tv_nsec
  else 0

/-- The `(unsigned long)total_time` cast: whole seconds of a nonnegative
duration given in nanoseconds, truncating the fraction. -/
def secondsOf (ns : Int) : Nat := ns.toNat / 1000000000

/-- `process_time`: tick-driven LED update while the button is held. -/
def process_time (seconds : Nat) (st : Monitor) : List Effect :=
  if st.state = PbState.PB_STATE_INUSE then
    if seconds ≥ 15 then [Effect.sysLed LedState.LED_FLASH_GREEN]
    else if seconds ≥ 10 then [Effect.sysLed LedState.LED_FLASH_RED]
    else if seconds ≥ 5 then [Effect.sysLed LedState.LED_RED]
    else []
  else []

/-- `process_end_time`: the action dispatcher, run once on a completed press
with the truncated whole-second duration. -/
def process_end_time (seconds : Nat) (st : Monitor) : List Effect × Monitor :=
  if seconds ≥ 15 then
    ([Effect.log "Long Push-Button Press (15+sec) - cancelled"], st)
  else if seconds ≥ 10 then
    ([Effect.log "Long Push-Button Press (10+sec) - shutdown", Effect.sysShutdown], st)
  else if seconds ≥ 5 then
    ([Effect.log "Long Push-Button Press (5+sec) - Enter factory reset on next reboot",
      Effect.createMarker],
     { st with markerPresent := true })
  else if st.state = PbState.PB_STATE_INUSE then
    ([Effect.log "Short Push-ButtonPress (less 5sec ) - reboot", Effect.sysReboot], st)
  else
    ([Effect.log "Factory Reset",
      Effect.sysCmd (st.checkCmd ++ "1"),
      Effect.sysLed LedState.LED_FLASH_GREEN],
     { st with checkCmd := st.checkCmd ++ "1", state := PbState.PB_STATE_INUSE })

/-- `timer_handler`: signal handler on timer expiry; on first entry (mode
still STARTUP) switches to IN_USE, flashes green and calls the check script
with the non-reset flag "0" appended to the shared buffer. -/
def timer_handler (st : Monitor) : List Effect × Monitor :=
  if st.state = PbState.PB_STATE_START then
    ([Effect.log "Signal - Changes pb mode to in-use",
      Effect.sysLed LedState.LED_FLASH_GREEN,
      Effect.sysCmd (st.checkCmd ++ "0")],
     { st with state := PbState.PB_STATE_INUSE, checkCmd := st.checkCmd ++ "0" })
  else ([], st)

/-- `check_inuse_factory_reset`: boot-time marker check.  Returns the emitted
effects, the new state, and the `time_start` value the caller arms the timer
with. -/
def check_inuse_factory_reset (st : Monitor) : (List Effect × Monitor) × Nat :=
  if st.markerPresent = false then
    (([Effect.sysLed LedState.LED_RED], st), TIMER1_EXPIRE)
  else
    (([Effect.removeMarker,
       Effect.sysCmd (st.checkCmd ++ "1"),
       Effect.sysLed LedState.LED_FLASH_GREEN],
      { st with markerPresent := false, checkCmd := st.checkCmd ++ "1",
                state := PbState.PB_STATE_INUSE }),
     TIMER1_INTERVAL)

/-- Main-loop PRESS edge (`ev[i].value == 1`): `clock_gettime` stores the
current time into `timer_start`, unconditionally. -/
def onPressEdge (ts : Timespec) (st : Monitor) : Monitor :=
  { st with timer_start := ts }

/-- Main-loop RELEASE edge (`ev[i].value == 0`): measure the press, and when
the measured total time is nonzero dispatch it, clear `timer_start` back to
(0,0) and flash green; otherwise print "Invalid Time" only. -/
def onReleaseEdge (now : Timespec) (st : Monitor) : List Effect × Monitor :=
  if test_time st.timer_start now ≠ 0 then
    ((process_end_time (secondsOf (test_time st.timer_start now)) st).1
       ++ [Effect.sysLed LedState.LED_FLASH_GREEN],
     { (process_end_time (secondsOf (test_time st.timer_start now)) st).2 with
        timer_start := ⟨0, 0⟩ })
  else
    ([Effect.log "Invalid Time"], st)

/-- End of each main-loop iteration: re-sample the held duration and update
the LED via `process_time` when the sample is nonzero. -/
def tickSample (now : Timespec) (st : Monitor) : List Effect :=
  if test_time st.timer_start now ≠ 0 then
    process_time (secondsOf (test_time st.timer_start now)) st
  else []

/-- Events driving the monitor after initialisation. -/
inductive Event where
  | timerExpire
  | press (ts : Timespec)
  | release (now : Timespec)
  | tick (now : Timespec)

/-- One step of the monitor on an event. -/
def step (e : Event) (st : Monitor) : List Effect × Monitor :=
  match e with
  | Event.timerExpire => timer_handler st
  | Event.press ts => ([], onPressEdge ts st)
  | Event.release now => onReleaseEdge now st
  | Event.tick now => (tickSample now st, st)

/-- The monitor state right after `main` sets `state = PB_STATE_START` and
zeroes `timer_start`, with no marker file present. -/
def monStart : Monitor :=
  ⟨PbState.PB_STATE_START, str_sys_call_check_factory_reset, ⟨0, 0⟩, false⟩

/-- The same state once the mode has become IN_USE. -/
def monInuse : Monitor :=
  ⟨PbState.PB_STATE_INUSE, str_sys_call_check_factory_reset, ⟨0, 0⟩, false⟩

/-- Helper: the dispatcher never moves the mode away from IN_USE, and any
mode change it makes sets IN_USE. -/
theorem process_end_time_state_mono (s : Nat) (st : Monitor) :
    (process_end_time s st).2.state = st.state ∨
      (process_end_time s st).2.state = PbState.PB_STATE_INUSE := by
  unfold process_end_time
  split
  · exact Or.inl rfl
  · split
    · exact Or.inl rfl
    · split
      · exact Or.inl rfl
      · split
        · exact Or.inl rfl
        · exact Or.inr rfl

/-- Claim C1: the Action Dispatcher `process_end_time`, applied to the press
duration truncated to whole seconds, selects exactly one action with bands
inclusive on the lower bound: `s ≥ 15` dispatches nothing (cancel log only);
`10 ≤ s < 15` invokes shutdown; `5 ≤ s < 10` only creates the persisted
reset marker; `s < 5` in IN_USE invokes reboot; `s < 5` in STARTUP invokes
the factory-reset script and forces the mode to IN_USE.  Moreover the
truncation is a floor: a press measured as 4.999 s truncates to 4 (short
band) and one measured as 5.000 s truncates to 5 (medium band). -/
theorem C1_dispatch_bands (st : Monitor) (s : Nat) :
    (15 ≤ s →
      process_end_time s st =
        ([Effect.log "Long Push-Button Press (15+sec) - cancelled"], st)) ∧
    (10 ≤ s → s < 15 →
      process_end_time s st =
        ([Effect.log "Long Push-Button Press (10+sec) - shutdown",
          Effect.sysShutdown], st)) ∧
    (5 ≤ s → s < 10 →
      process_end_time s st =
        ([Effect.log "Long Push-Button Press (5+sec) - Enter factory reset on next reboot",
          Effect.createMarker], { st with markerPresent := true })) ∧
    (s < 5 → st.state = PbState.PB_STATE_INUSE →
      process_end_time s st =
        ([Effect.log "Short Push-ButtonPress (less 5sec ) - reboot",
          Effect.sysReboot], st)) ∧
    (s < 5 → st.state = PbState.PB_STATE_START →
      process_end_time s st =
        ([Effect.log "Factory Reset",
          Effect.sysCmd (st.checkCmd ++ "1"),
          Effect.sysLed LedState.LED_FLASH_GREEN],
         { st with checkCmd := st.checkCmd ++ "1",
                   state := PbState.PB_STATE_INUSE })) ∧
    secondsOf (test_time ⟨1, 0⟩ ⟨5, 999000000⟩) = 4 ∧
    secondsOf (test_time ⟨1, 0⟩ ⟨6, 0⟩) = 5 := by
  refine ⟨?_, ?_, ?_, ?_, ?_, by decide, by decide⟩
  · intro h
    unfold process_end_time
    rw [if_pos (by omega)]
  · intro h h'
    unfold process_end_time
    rw [if_neg (by omega), if_pos (by omega)]
  · intro h h'
    unfold process_end_time
    rw [if_neg (by omega), if_neg (by omega), if_pos (by omega)]
  · intro h h'
    unfold process_end_time
    rw [if_neg (by omega), if_neg (by omega), if_neg (by omega), if_pos h']
  · intro h h'
    unfold process_end_time
    rw [if_neg (by omega), if_neg (by omega), if_neg (by omega),
      if_neg (by rw [h']; intro hc; exact PbState.noConfusion hc)]

/-- Witness for C1 at concrete inputs: a 12 s press in IN_USE shuts down and
a 3 s press in STARTUP runs the factory-reset path. -/
theorem C1_dispatch_bands_witness :
    process_end_time 12 monInuse =
      ([Effect.log "Long Push-Button Press (10+sec) - shutdown",
        Effect.sysShutdown], monInuse) ∧
    process_end_time 3 monStart =
      ([Effect.log "Factory Reset",
        Effect.sysCmd (monStart.checkCmd ++ "1"),
        Effect.sysLed LedState.LED_FLASH_GREEN],
       { monStart with checkCmd := monStart.checkCmd ++ "1",
                       state := PbState.PB_STATE_INUSE }) :=
  ⟨(C1_dispatch_bands monInuse 12).2.1 (by decide) (by decide),
   (C1_dispatch_bands monStart 3).2.2.2.2.1 (by decide) rfl⟩

/-- Claim C2 counterexample: dispatching a release of duration 5 s while in
STARTUP leaves the post-state mode equal to STARTUP, not IN_USE, refuting
the claim that any release of duration ≥ 5 s dispatched in STARTUP leaves
the mode IN_USE. -/
theorem C2_startup_medium_counterexample :
    (process_end_time 5 monStart).2.state = PbState.PB_STATE_START ∧
    PbState.PB_STATE_START ≠ PbState.PB_STATE_INUSE := by decide

/-- Claim C2 amended: for a release of duration ≥ 5 s the dispatcher takes
the same branch with the same effects in STARTUP as in IN_USE, but it leaves
the mode unchanged; the dispatcher forces the mode to IN_USE only on a
sub-5-second STARTUP release (the STARTUP→IN_USE transition on longer
presses is left to the grace-timer handler). -/
theorem C2_startup_medium_amended (st : Monitor) (s : Nat) (h : 5 ≤ s) :
    (process_end_time s st).1 =
      (process_end_time s { st with state := PbState.PB_STATE_INUSE }).1 ∧
    (process_end_time s st).2.state = st.state := by
  unfold process_end_time
  split_ifs <;> exact ⟨rfl, rfl⟩

/-- Witness for the amended C2 at duration 7 s in STARTUP. -/
theorem C2_startup_medium_amended_witness :
    (process_end_time 7 monStart).1 =
      (process_end_time 7 { monStart with state := PbState.PB_STATE_INUSE }).1 ∧
    (process_end_time 7 monStart).2.state = monStart.state :=
  C2_startup_medium_amended monStart 7 (by decide)

/-- Claim C3 counterexample: while holding for 3 s in IN_USE, `process_time`
issues no LED command at all — in particular it does not set the LED to
GREEN as the claim's sub-5-second band requires. -/
theorem C3_led_green_counterexample :
    process_time 3 monInuse = [] ∧
    Effect.sysLed LedState.LED_GREEN ∉ process_time 3 monInuse := by decide

/-- Claim C3 amended: the tick-driven LED policy issues a command only in
IN_USE with truncated duration ≥ 5 s — RED for 5–10 s, FLASH_RED for
10–15 s, FLASH_GREEN for ≥ 15 s; for durations below 5 s and always in
STARTUP it issues nothing (the LED keeps its previous steady state, RED in
STARTUP); and immediately after a valid release the main loop sets the LED
to FLASH_GREEN. -/
theorem C3_led_bands_amended (st : Monitor) (s : Nat) (now : Timespec) :
    (st.state = PbState.PB_STATE_START → process_time s st = []) ∧
    (st.state = PbState.PB_STATE_INUSE → s < 5 → process_time s st = []) ∧
    (st.state = PbState.PB_STATE_INUSE → 5 ≤ s → s < 10 →
      process_time s st = [Effect.sysLed LedState.LED_RED]) ∧
    (st.state = PbState.PB_STATE_INUSE → 10 ≤ s → s < 15 →
      process_time s st = [Effect.sysLed LedState.LED_FLASH_RED]) ∧
    (st.state = PbState.PB_STATE_INUSE → 15 ≤ s →
      process_time s st = [Effect.sysLed LedState.LED_FLASH_GREEN]) ∧
    (test_time st.timer_start now ≠ 0 →
      ((onReleaseEdge now st).1).getLast? =
        some (Effect.sysLed LedState.LED_FLASH_GREEN)) := by
  refine ⟨?_, ?_, ?_, ?_, ?_, ?_⟩
  · intro h
    unfold process_time
    rw [if_neg (by rw [h]; intro hc; exact PbState.noConfusion hc)]
  · intro h hs
    unfold process_time
    rw [if_pos h, if_neg (by omega), if_neg (by omega), if_neg (by omega)]
  · intro h h5 h10
    unfold process_time
    rw [if_pos h, if_neg (by omega), if_neg (by omega), if_pos (by omega)]
  · intro h h10 h15
    unfold process_time
    rw [if_pos h, if_neg (by omega), if_pos (by omega)]
  · intro h h15
    unfold process_time
    rw [if_pos h, if_pos (by omega)]
  · intro h
    unfold onReleaseEdge
    rw [if_pos h]
    exact List.getLast?_concat _

/-- Witness for the amended C3: held 12 s in IN_USE the LED flashes red, and
a valid 3 s release flashes green afterward. -/
theorem C3_led_bands_amended_witness :
    process_time 12 monInuse = [Effect.sysLed LedState.LED_FLASH_RED] ∧
    ((onReleaseEdge ⟨5, 0⟩ { monInuse with timer_start := ⟨2, 0⟩ }).1).getLast? =
      some (Effect.sysLed LedState.LED_FLASH_GREEN) :=
  ⟨(C3_led_bands_amended monInuse 12 ⟨0, 0⟩).2.2.2.1 rfl (by decide) (by decide),
   (C3_led_bands_amended { monInuse with timer_start := ⟨2, 0⟩ } 12 ⟨5, 0⟩).2.2.2.2.2
     (by decide)⟩

/-- Claim C4: when the grace timer expires while the mode is still STARTUP,
the mode becomes IN_USE and the LED is set to FLASH_GREEN; the handler
invokes no reboot, no shutdown and writes no marker, and its only script
call is the check script with the non-reset flag "0" appended (the source
comment: call check-factory-reset.sh without causing factory reset).
Moreover the only time-driven operations are this handler and the periodic
LED re-sample, and the latter never changes the monitor state, so the timer
expiry is the only mode transition driven purely by elapsed time. -/
theorem C4_grace_timer_expiry (st : Monitor) (h : st.state = PbState.PB_STATE_START) :
    (timer_handler st).2.state = PbState.PB_STATE_INUSE ∧
    Effect.sysLed LedState.LED_FLASH_GREEN ∈ (timer_handler st).1 ∧
    Effect.sysReboot ∉ (timer_handler st).1 ∧
    Effect.sysShutdown ∉ (timer_handler st).1 ∧
    Effect.createMarker ∉ (timer_handler st).1 ∧
    (∀ cmd, Effect.sysCmd cmd ∈ (timer_handler st).1 → cmd = st.checkCmd ++ "0") ∧
    (∀ now, (step (Event.tick now) st).2 = st) := by
  unfold timer_handler
  rw [if_pos h]
  refine ⟨rfl, by simp, by simp, by simp, by simp, ?_, fun now => rfl⟩
  intro cmd hc
  simp only [List.mem_cons, List.not_mem_nil, or_false] at hc
  rcases hc with hc | hc | hc
  · exact absurd hc (by simp)
  · exact absurd hc (by simp)
  · exact (Effect.sysCmd.injEq _ _).mp hc.symm |>.symm ▸ rfl

/-- Witness for C4 at the initial STARTUP state. -/
theorem C4_grace_timer_expiry_witness :
    (timer_handler monStart).2.state = PbState.PB_STATE_INUSE ∧
    Effect.sysLed LedState.LED_FLASH_GREEN ∈ (timer_handler monStart).1 ∧
    Effect.sysReboot ∉ (timer_handler monStart).1 ∧
    Effect.sysShutdown ∉ (timer_handler monStart).1 ∧
    Effect.createMarker ∉ (timer_handler monStart).1 ∧
    (∀ cmd, Effect.sysCmd cmd ∈ (timer_handler monStart).1 →
      cmd = monStart.checkCmd ++ "0") ∧
    (∀ now, (step (Event.tick now) monStart).2 = monStart) :=
  C4_grace_timer_expiry monStart rfl

/-- Claim C5: at process start, with the marker present the boot check
deletes the marker, invokes the factory-reset script exactly once (flag "1"
appended), sets the mode to IN_USE immediately, sets the LED to FLASH_GREEN,
and arms the timer with the short tick interval (2 s) rather than the full
grace period (10 s); with the marker absent it leaves the mode as it was
(STARTUP at boot), sets the LED to RED and arms the full 10 s grace
period. -/
theorem C5_boot_marker_check (st : Monitor) :
    (st.markerPresent = true →
      check_inuse_factory_reset st =
        (([Effect.removeMarker,
           Effect.sysCmd (st.checkCmd ++ "1"),
           Effect.sysLed LedState.LED_FLASH_GREEN],
          { st with markerPresent := false, checkCmd := st.checkCmd ++ "1",
                    state := PbState.PB_STATE_INUSE }),
         TIMER1_INTERVAL) ∧
      ((check_inuse_factory_reset st).1.1.countP
        (fun e => match e with | Effect.sysCmd _ => true | _ => false)) = 1) ∧
    (st.markerPresent = false →
      check_inuse_factory_reset st =
        (([Effect.sysLed LedState.LED_RED], st), TIMER1_EXPIRE)) ∧
    TIMER1_INTERVAL = 2 ∧ TIMER1_EXPIRE = 10 ∧ TIMER1_INTERVAL ≠ TIMER1_EXPIRE := by
  refine ⟨?_, ?_, rfl, rfl, by decide⟩
  · intro h
    unfold check_inuse_factory_reset
    rw [if_neg (by simp [h])]
    exact ⟨rfl, rfl⟩
  · intro h
    unfold check_inuse_factory_reset
    rw [if_pos h]

/-- Witness for C5 in both boot configurations. -/
theorem C5_boot_marker_check_witness :
    check_inuse_factory_reset { monStart with markerPresent := true } =
      (([Effect.removeMarker,
         Effect.sysCmd (monStart.checkCmd ++ "1"),
         Effect.sysLed LedState.LED_FLASH_GREEN],
        { monStart with markerPresent := false, checkCmd := monStart.checkCmd ++ "1",
                        state := PbState.PB_STATE_INUSE }),
       TIMER1_INTERVAL) ∧
    check_inuse_factory_reset monStart =
      (([Effect.sysLed LedState.LED_RED], monStart), TIMER1_EXPIRE) :=
  ⟨((C5_boot_marker_check { monStart with markerPresent := true }).1 rfl).1,
   (C5_boot_marker_check monStart).2.1 rfl⟩

/-- Claim C6 counterexample: a press edge at t = 8 s arriving while an
interval opened at t = 5 s is still open is not rejected — the recorded
start is overwritten to 8 s, so a release at t = 12 s measures 4 s (from
the later press) instead of 7 s (from the original press). -/
theorem C6_press_reject_counterexample :
    (onPressEdge ⟨8, 0⟩ { monStart with timer_start := ⟨5, 0⟩ }).timer_start = ⟨8, 0⟩ ∧
    (⟨8, 0⟩ : Timespec) ≠ ⟨5, 0⟩ ∧
    secondsOf (test_time
      (onPressEdge ⟨8, 0⟩ { monStart with timer_start := ⟨5, 0⟩ }).timer_start
      ⟨12, 0⟩) = 4 ∧
    secondsOf (test_time (⟨5, 0⟩ : Timespec) ⟨12, 0⟩) = 7 := by decide

/-- Claim C6 amended: a press edge always overwrites the recorded interval
start with its own timestamp — even while a press interval is already open,
with no rejection and no diagnostic — so the eventual release duration is
measured from the most recent press, not the original one. -/
theorem C6_press_overwrites (ts : Timespec) (st : Monitor) :
    (onPressEdge ts st).timer_start = ts ∧
    (step (Event.press ts) st).1 = [] := ⟨rfl, rfl⟩

/-- Claim C7: a release edge arriving when no press interval is open (start
still the (0,0) sentinel) only prints a diagnostic: no dispatch, no system
action, no LED change, and the whole monitor state — mode included — is
unchanged; whereas a release with an open interval and a nonzero (positive)
measured duration applies the Action Dispatcher exactly once and then clears
the interval. -/
theorem C7_spurious_release (st : Monitor) (now : Timespec) :
    (st.timer_start = ⟨0, 0⟩ →
      onReleaseEdge now st = ([Effect.log "Invalid Time"], st)) ∧
    (0 < test_time st.timer_start now →
      (onReleaseEdge now st).1 =
        (process_end_time (secondsOf (test_time st.timer_start now)) st).1
          ++ [Effect.sysLed LedState.LED_FLASH_GREEN] ∧
      (onReleaseEdge now st).2 =
        { (process_end_time (secondsOf (test_time st.timer_start now)) st).2 with
            timer_start := ⟨0, 0⟩ }) := by
  constructor
  · intro h
    unfold onReleaseEdge
    rw [if_neg]
    simp only [ne_eq, not_not]
    rw [h]
    unfold test_time
    rw [if_neg (by simp)]
  · intro h
    unfold onReleaseEdge
    rw [if_pos (by omega)]
    exact ⟨rfl, rfl⟩

/-- Witness for C7: a spurious release against the sentinel is a logged
no-op, and a 2 s-to-5 s press dispatches once. -/
theorem C7_spurious_release_witness :
    onReleaseEdge ⟨9, 0⟩ monStart = ([Effect.log "Invalid Time"], monStart) ∧
    (onReleaseEdge ⟨5, 0⟩ { monInuse with timer_start := ⟨2, 0⟩ }).1 =
      (process_end_time
        (secondsOf (test_time ({ monInuse with timer_start := ⟨2, 0⟩ } : Monitor).timer_start ⟨5, 0⟩))
        { monInuse with timer_start := ⟨2, 0⟩ }).1
        ++ [Effect.sysLed LedState.LED_FLASH_GREEN] :=
  ⟨(C7_spurious_release monStart ⟨9, 0⟩).1 rfl,
   ((C7_spurious_release { monInuse with timer_start := ⟨2, 0⟩ } ⟨5, 0⟩).2 (by decide)).1⟩

/-- Claim C8: the mode is monotone.  Every step of the monitor — timer
expiry, press edge, release edge (the dispatcher), periodic tick — and the
boot-time marker check either leaves the mode unchanged or sets it to
IN_USE; once the mode is IN_USE no step ever moves it back to STARTUP. -/
theorem C8_mode_monotone (e : Event) (st : Monitor) :
    ((step e st).2.state = st.state ∨
      (step e st).2.state = PbState.PB_STATE_INUSE) ∧
    (st.state = PbState.PB_STATE_INUSE →
      (step e st).2.state = PbState.PB_STATE_INUSE) ∧
    ((check_inuse_factory_reset st).1.2.state = st.state ∨
      (check_inuse_factory_reset st).1.2.state = PbState.PB_STATE_INUSE) := by
  have hchk : (check_inuse_factory_reset st).1.2.state = st.state ∨
      (check_inuse_factory_reset st).1.2.state = PbState.PB_STATE_INUSE := by
    unfold check_inuse_factory_reset
    split
    · exact Or.inl rfl
    · exact Or.inr rfl
  have hstep : (step e st).2.state = st.state ∨
      (step e st).2.state = PbState.PB_STATE_INUSE := by
    cases e with
    | timerExpire =>
        show (timer_handler st).2.state = st.state ∨
          (timer_handler st).2.state = PbState.PB_STATE_INUSE
        unfold timer_handler
        split
        · exact Or.inr rfl
        · exact Or.inl rfl
    | press ts => exact Or.inl rfl
    | release now =>
        show (onReleaseEdge now st).2.state = st.state ∨
          (onReleaseEdge now st).2.state = PbState.PB_STATE_INUSE
        unfold onReleaseEdge
        split
        · exact process_end_time_state_mono _ st
        · exact Or.inl rfl
    | tick now => exact Or.inl rfl
  refine ⟨hstep, ?_, hchk⟩
  intro h
  rcases hstep with h' | h'
  · rw [h', h]
  · exact h'

/-- Witness for C8: from IN_USE, a timer expiry leaves the mode IN_USE. -/
theorem C8_mode_monotone_witness :
    ((step Event.timerExpire monInuse).2.state = monInuse.state ∨
      (step Event.timerExpire monInuse).2.state = PbState.PB_STATE_INUSE) ∧
    (step Event.timerExpire monInuse).2.state = PbState.PB_STATE_INUSE :=
  ⟨(C8_mode_monotone Event.timerExpire monInuse).1,
   (C8_mode_monotone Event.timerExpire monInuse).2.1 rfl⟩

/-- Helper: the dispatcher leaves the shared command buffer unchanged except
on the STARTUP short-press path, where it appends the flag "1". -/
theorem process_end_time_checkCmd (s : Nat) (st : Monitor) :
    (process_end_time s st).2.checkCmd = st.checkCmd ∨
      (process_end_time s st).2.checkCmd = st.checkCmd ++ "1" := by
  unfold process_end_time
  split
  · exact Or.inl rfl
  · split
    · exact Or.inl rfl
    · split
      · exact Or.inl rfl
      · split
        · exact Or.inl rfl
        · exact Or.inr rfl

/-- The `strcat`-then-`system` call path on the shared command buffer: each
invocation appends its flag to the buffer and passes the grown buffer to
`system`; the buffer is carried over to the next invocation, never reset. -/
def invoke_check_script_seq : List String → String → List String
  | [], _ => []
  | f :: fs, buf => (buf ++ f) :: invoke_check_script_seq fs (buf ++ f)

/-- Helper: the k-th command passed to `system` by the call path carries the
base buffer plus k+1 accumulated one-character flags. -/
theorem invoke_check_script_seq_get (fs : List String) (buf : String)
    (hf : ∀ f ∈ fs, f.length = 1) (k : Nat) (hk : k < fs.length) :
    ∃ cmd, (invoke_check_script_seq fs buf).get? k = some cmd ∧
      cmd.length = buf.length + k + 1 := by
  induction fs generalizing buf k with
  | nil => exact absurd hk (by simp)
  | cons f fs ih =>
      cases k with
      | zero =>
          refine ⟨buf ++ f, rfl, ?_⟩
          rw [String.length_append, hf f (by simp)]
      | succ k =>
          obtain ⟨cmd, hcmd, hlen⟩ :=
            ih (buf ++ f) (fun g hg => hf g (by simp [hg])) k (by simpa using hk)
          refine ⟨cmd, hcmd, ?_⟩
          rw [hlen, String.length_append, hf f (by simp)]
          omega

/-- Claim C9: the factory-reset check command line is a shared mutable
buffer that every invocation site grows with `strcat` by one flag character
and that is never reset: the k-th command passed to `system` carries k+1
accumulated flag characters, so any later command differs from the first.
Each source call site — the timer handler (flag "0"), the STARTUP
short-press dispatch (flag "1") and the boot marker check (flag "1") —
appends to the buffer it inherited and passes the whole grown buffer, and
no monitor step ever shrinks the buffer. -/
theorem C9_cmd_buffer_accumulates (fs : List String) (base : String)
    (hf : ∀ f ∈ fs, f.length = 1) (j k : Nat) (hjk : j < k) (hk : k < fs.length) :
    (∀ cj ck, (invoke_check_script_seq fs base).get? j = some cj →
      (invoke_check_script_seq fs base).get? k = some ck →
      ck.length = base.length + k + 1 ∧ cj ≠ ck) ∧
    (∀ st, st.state = PbState.PB_STATE_START →
      (timer_handler st).2.checkCmd = st.checkCmd ++ "0" ∧
      Effect.sysCmd (st.checkCmd ++ "0") ∈ (timer_handler st).1) ∧
    (∀ st s, s < 5 → st.state = PbState.PB_STATE_START →
      (process_end_time s st).2.checkCmd = st.checkCmd ++ "1" ∧
      Effect.sysCmd (st.checkCmd ++ "1") ∈ (process_end_time s st).1) ∧
    (∀ st, st.markerPresent = true →
      ((check_inuse_factory_reset st).1.2).checkCmd = st.checkCmd ++ "1" ∧
      Effect.sysCmd (st.checkCmd ++ "1") ∈ (check_inuse_factory_reset st).1.1) ∧
    (∀ e st, st.checkCmd.length ≤ ((step e st).2).checkCmd.length) := by
  refine ⟨?_, ?_, ?_, ?_, ?_⟩
  · intro cj ck hcj hck
    obtain ⟨cj', hcj', hlenj⟩ :=
      invoke_check_script_seq_get fs base hf j (by omega)
    obtain ⟨ck', hck', hlenk⟩ :=
      invoke_check_script_seq_get fs base hf k hk
    rw [hcj'] at hcj
    rw [hck'] at hck
    obtain rfl : cj' = cj := Option.some.inj hcj
    obtain rfl : ck' = ck := Option.some.inj hck
    refine ⟨hlenk, fun hcontra => ?_⟩
    rw [hcontra] at hlenj
    omega
  · intro st h
    unfold timer_handler
    rw [if_pos h]
    exact ⟨rfl, by simp⟩
  · intro st s hs h
    unfold process_end_time
    rw [if_neg (by omega), if_neg (by omega), if_neg (by omega),
      if_neg (by rw [h]; intro hc; exact PbState.noConfusion hc)]
    exact ⟨rfl, by simp⟩
  · intro st h
    unfold check_inuse_factory_reset
    rw [if_neg (by simp [h])]
    exact ⟨rfl, by simp⟩
  · intro e st
    cases e with
    | timerExpire =>
        show st.checkCmd.length ≤ (timer_handler st).2.checkCmd.length
        unfold timer_handler
        split
        · rw [String.length_append]
          omega
        · exact le_refl _
    | press ts => exact le_refl _
    | release now =>
        show st.checkCmd.length ≤ (onReleaseEdge now st).2.checkCmd.length
        unfold onReleaseEdge
        split
        · show st.checkCmd.length ≤
            (process_end_time (secondsOf (test_time st.timer_start now)) st).2.checkCmd.length
          rcases process_end_time_checkCmd
            (secondsOf (test_time st.timer_start now)) st with h | h
          · rw [h]
          · rw [h, String.length_append]
            omega
        · exact le_refl _
    | tick now => exact le_refl _

/-- Witness for C9 on two consecutive flag-"1" invocations from the pristine
buffer: the second command is one character longer than the first and
differs from it. -/
theorem C9_cmd_buffer_accumulates_witness :
    (str_sys_call_check_factory_reset ++ "1" ++ "1").length =
      str_sys_call_check_factory_reset.length + 1 + 1 ∧
    str_sys_call_check_factory_reset ++ "1" ≠
      str_sys_call_check_factory_reset ++ "1" ++ "1" :=
  (C9_cmd_buffer_accumulates ["1", "1"] str_sys_call_check_factory_reset
    (by decide) 0 1 (by decide) (by decide)).1
    (str_sys_call_check_factory_reset ++ "1")
    (str_sys_call_check_factory_reset ++ "1" ++ "1") rfl rfl

/-- Claim C10: the press-interval open/closed test uses the timestamp
(0 s, 0 ns) as the "closed" sentinel.  A press edge with the exactly-zero
timestamp leaves the interval indistinguishable from "no press open":
`test_time` yields 0 and the subsequent release only logs "Invalid Time",
dispatching nothing and changing nothing.  A press timestamp with a positive
seconds or nanoseconds component is seen as open: `test_time` really
computes the duration difference, and a valid release dispatches and then
resets the start back to the (0,0) sentinel, closing the interval. -/
theorem C10_zero_sentinel (st : Monitor) (now ts : Timespec) :
    (test_time ((onPressEdge ⟨0, 0⟩ st).timer_start) now = 0 ∧
     onReleaseEdge now (onPressEdge ⟨0, 0⟩ st) =
       ([Effect.log "Invalid Time"], onPressEdge ⟨0, 0⟩ st)) ∧
    ((0 < ts.tv_sec ∨ 0 < ts.tv_nsec) →
      (∀ stp, test_time ((onPressEdge ts st).timer_start) stp =
        (timespec_diff ts stp).tv_sec * 1000000000 + (timespec_diff ts stp).tv_nsec) ∧
      (0 < test_time ts now →
        (onReleaseEdge now { st with timer_start := ts }).2.timer_start = ⟨0, 0⟩ ∧
        test_time ((onReleaseEdge now { st with timer_start := ts }).2.timer_start) now = 0 ∧
        (onReleaseEdge now { st with timer_start := ts }).1 =
          (process_end_time (secondsOf (test_time ts now))
              { st with timer_start := ts }).1
            ++ [Effect.sysLed LedState.LED_FLASH_GREEN])) := by
  have h0 : ∀ stp : Timespec, test_time ⟨0, 0⟩ stp = 0 := by
    intro stp
    unfold test_time
    rw [if_neg (by simp)]
  constructor
  · constructor
    · exact h0 now
    · show onReleaseEdge now { st with timer_start := ⟨0, 0⟩ } = _
      unfold onReleaseEdge
      dsimp only
      rw [if_neg (by rw [h0 now]; simp)]
      rfl
  · intro hopen
    constructor
    · intro stp
      show test_time ts stp = _
      unfold test_time
      rw [if_pos hopen]
    · intro hpos
      show (onReleaseEdge now { st with timer_start := ts }).2.timer_start = ⟨0, 0⟩ ∧ _
      unfold onReleaseEdge
      dsimp only
      rw [if_pos (by omega)]
      exact ⟨rfl, h0 now, rfl⟩

/-- Witness for C10: a press at timestamp (0,0) makes the following release
invalid, while a press at 3 s released at 5 s dispatches and closes the
interval. -/
theorem C10_zero_sentinel_witness :
    onReleaseEdge ⟨5, 0⟩ (onPressEdge ⟨0, 0⟩ monStart) =
      ([Effect.log "Invalid Time"], onPressEdge ⟨0, 0⟩ monStart) ∧
    (onReleaseEdge ⟨5, 0⟩ { monStart with timer_start := ⟨3, 0⟩ }).2.timer_start = ⟨0, 0⟩ :=
  ⟨(C10_zero_sentinel monStart ⟨5, 0⟩ ⟨3, 0⟩).1.2,
   (((C10_zero_sentinel monStart ⟨5, 0⟩ ⟨3, 0⟩).2 (by decide)).2 (by decide)).1⟩
